import Mathlib

/-!
Shallow embedding of `utils/kubernetes/kubeutil.py` (KubeUtil).

External effects are modelled as explicit parameters:
  * the filesystem (`os.path.exists`) is a function `String → Bool`;
  * the contents of the service-account token file is an `Option String`
    (`none` models an `IOError` on read, making `get_auth_token` return `None`);
  * the network is a function from the request actually issued by
    `requests.get` to a result (`exc` models a raised exception such as a
    connection error or timeout; `resp r` models a returned response object).

Python truthiness of optional strings (`None`/`""` falsy) is made explicit.
-/

/-- Truthiness of a Python value that is either `None` or a string. -/
def optStrTruthy : Option String → Bool
  | none => false
  | some s => !s.isEmpty

/-- Python `a or b` on two `None`-or-string values. -/
def pyOr (a b : Option String) : Option String :=
  if optStrTruthy a then a else b

/-- Python `str.lower()` (ASCII), character by character. -/
def py_lower (s : String) : String := String.mk (s.data.map Char.toLower)

/-- Python `s.startswith(p)`. -/
def py_startswith (s p : String) : Bool := p.data.isPrefixOf s.data

/-- Python `'{}'.format(x)` where `x` is `None` or a string. -/
def pyFormatOpt : Option String → String
  | none => "None"
  | some s => s

/-- The `verify` argument passed to `requests.get`: a boolean or a CA file path. -/
inductive Verify where
  | bool (b : Bool)
  | path (p : String)
deriving Repr, DecidableEq

/-- Python truthiness of a verify value (`tls_settings['verify']`). -/
def Verify.truthy : Verify → Bool
  | .bool b => b
  | .path p => !p.isEmpty

/- Constants from the source. -/

def DEFAULT_TLS_VERIFY : Bool := true
def DEFAULT_METHOD : String := "http"
def KUBELET_HEALTH_PATH : String := "/healthz"
def MACHINE_INFO_PATH : String := "/api/v1.3/machine/"
def METRICS_PATH : String := "/api/v1.3/subcontainers/"
def PODS_LIST_PATH : String := "/pods/"
def DEFAULT_CADVISOR_PORT : Nat := 4194
def DEFAULT_HTTP_KUBELET_PORT : Nat := 10255
def DEFAULT_HTTPS_KUBELET_PORT : Nat := 10250
def DEFAULT_MASTER_NAME : String := "kubernetes"
def CA_CRT_PATH : String := "/run/secrets/kubernetes.io/serviceaccount/ca.crt"
def AUTH_TOKEN_PATH : String := "/run/secrets/kubernetes.io/serviceaccount/token"

/-- The check-configuration mapping (`instance`), with the keys the code reads.
A `none` field models an absent key. -/
structure KubeConfig where
  method : Option String := none
  host : Option String := none
  port : Option Nat := none
  kubelet_port : Option Nat := none
  kubelet_client_crt : Option String := none
  kubelet_client_key : Option String := none
  kubelet_cert : Option String := none
  kubelet_tls_verify : Option Bool := none
deriving Repr, DecidableEq

/-- The `tls_settings` dict built by `_init_tls_settings`: the
`'kubelet_client_cert'` key is optional, the `'verify'` key is always set. -/
structure TlsSettings where
  kubelet_client_cert : Option (String × String)
  verify : Verify
deriving Repr, DecidableEq

/-- `KubeUtil._init_tls_settings(instance)`, with `os.path.exists` abstracted
as `fs`. -/
def init_tls_settings (fs : String → Bool) (inst : KubeConfig) : TlsSettings :=
  let client_crt := inst.kubelet_client_crt
  let client_key := inst.kubelet_client_key
  let cert_pair : Option (String × String) :=
    match client_crt, client_key with
    | some crt, some key =>
        if !crt.isEmpty && !key.isEmpty && fs crt && fs key then some (crt, key)
        else none
    | _, _ => none
  let verify : Verify :=
    match inst.kubelet_cert with
    | some c =>
        if !c.isEmpty then Verify.path c
        else Verify.bool (inst.kubelet_tls_verify.getD DEFAULT_TLS_VERIFY)
    | none => Verify.bool (inst.kubelet_tls_verify.getD DEFAULT_TLS_VERIFY)
  { kubelet_client_cert := cert_pair, verify := verify }

/-- `KubeUtil.get_auth_token()`: reads the token file, returning its contents,
or `None` when the read raises `IOError`.  The file state at the moment of the
call is the argument. -/
def get_auth_token (tokenFile : Option String) : Option String := tokenFile

/- Requests issued against the kubelet (`perform_kubelet_query`). -/

/-- The arguments `perform_kubelet_query` hands to `requests.get`. -/
structure KubeletRequest where
  url : String
  timeout : Nat
  verify : Verify
  cert : Option (String × String)
  authHeader : Option String
  verbose : Bool
deriving Repr, DecidableEq

structure HttpResponse where
  status : Nat
  body : String
deriving Repr, DecidableEq

/-- Outcome of a `requests.get` call: a raised exception (connection error,
timeout) or a returned response object (any status, uninspected). -/
inductive KubeletResult where
  | exc
  | resp (r : HttpResponse)
deriving Repr, DecidableEq

/-- The request `perform_kubelet_query(url, verbose, timeout)` builds: client
cert and verify come from `tls_settings`; the `Authorization` header is set
exactly when no client cert is configured and `url.lower().startswith('https')`,
using the token read from the file on this call. -/
def kubelet_request (tls : TlsSettings) (tokenFile : Option String) (url : String)
    (verbose : Bool) (timeout : Nat) : KubeletRequest :=
  let cert := tls.kubelet_client_cert
  let verify := tls.verify
  let headers : Option String :=
    if cert.isNone && py_startswith (py_lower url) "https" then
      some ("Bearer " ++ pyFormatOpt (get_auth_token tokenFile))
    else none
  { url := url, timeout := timeout, verify := verify, cert := cert,
    authHeader := headers, verbose := verbose }

/-- `KubeUtil.perform_kubelet_query`: issues the GET and returns whatever
`requests.get` produced, never inspecting the status code. -/
def perform_kubelet_query (net : KubeletRequest → KubeletResult) (tls : TlsSettings)
    (tokenFile : Option String) (url : String) (verbose : Bool := true)
    (timeout : Nat := 10) : KubeletResult :=
  net (kubelet_request tls tokenFile url verbose timeout)

/- Requests issued against the apiserver (`retrieve_json_auth`). -/

/-- The arguments `retrieve_json_auth` hands to `requests.get`. -/
structure ApiRequest where
  url : String
  timeout : Nat
  authHeader : String
  verify : Verify
deriving Repr, DecidableEq

/-- A parsed apiserver response: status code plus the JSON body, at the type
the caller expects. -/
structure ApiResponse (α : Type) where
  status : Nat
  body : α
deriving Repr, DecidableEq

inductive ApiError where
  | connection
  | httpStatus (code : Nat)
deriving Repr, DecidableEq

/-- `requests.Response.raise_for_status()` raises `HTTPError` exactly for
status codes in `[400, 600)`. -/
def raise_for_status (status : Nat) : Bool :=
  400 ≤ status && status < 600

/-- The request `retrieve_json_auth(url, auth_token, timeout, verify)` builds:
when `verify` is `None` it becomes the CA cert path if that file exists, else
`False`; the bearer header is always attached. -/
def api_request (fs : String → Bool) (url : String) (auth_token : Option String)
    (timeout : Nat) (verify : Option Verify) : ApiRequest :=
  let v : Verify :=
    match verify with
    | some v => v
    | none => if fs CA_CRT_PATH then Verify.path CA_CRT_PATH else Verify.bool false
  { url := url, timeout := timeout,
    authHeader := "Bearer " ++ pyFormatOpt auth_token, verify := v }

/-- `KubeUtil.retrieve_json_auth`: issue the GET, `raise_for_status`, return
the parsed JSON body. `net _ = none` models a raised connection error. -/
def retrieve_json_auth {α : Type} (net : ApiRequest → Option (ApiResponse α))
    (fs : String → Bool) (url : String) (auth_token : Option String)
    (timeout : Nat := 10) (verify : Option Verify := none) : Except ApiError α :=
  match net (api_request fs url auth_token timeout verify) with
  | none => .error .connection
  | some r =>
      if raise_for_status r.status then .error (.httpStatus r.status) else .ok r.body

/- urlencode / quote_plus, as used for the node label selector. -/

def hexDigitChar (n : Nat) : Char :=
  if n < 10 then Char.ofNat (48 + n) else Char.ofNat (55 + n)

def percentEncodeByte (n : Nat) : String :=
  "%" ++ String.singleton (hexDigitChar (n / 16 % 16)) ++ String.singleton (hexDigitChar (n % 16))

/-- Python 2 `urllib.quote_plus` on one character (safe set: alphanumerics and
`_.-`; space becomes `+`). -/
def quote_plus_char (c : Char) : String :=
  if c = ' ' then "+"
  else if c.isAlphanum || c = '_' || c = '.' || c = '-' then String.singleton c
  else percentEncodeByte c.toNat

def quote_plus (s : String) : String :=
  String.join (s.data.map quote_plus_char)

/-- Python 2 `urllib.urlencode` on a list of string pairs. -/
def urlencode (params : List (String × String)) : String :=
  String.intercalate "&" (params.map (fun kv => quote_plus kv.1 ++ "=" ++ quote_plus kv.2))

/- Node list payloads returned by the apiserver `/nodes` query. -/

structure NodeAddress where
  type : Option String := none
  address : String := ""
deriving Repr, DecidableEq

/-- One element of `node['items']`; `addresses` models
`item.get('status', {}).get('addresses', [])`. -/
structure NodeItem where
  addresses : List NodeAddress := []
deriving Repr, DecidableEq

structure NodeList where
  items : List NodeItem := []
deriving Repr, DecidableEq

/-- The loop in `get_node_hostname`: first address whose `type` is
`'Hostname'`, returning its `address`. -/
def find_hostname_address : List NodeAddress → Option String
  | [] => none
  | a :: rest =>
      if a.type == some "Hostname" then some a.address else find_hostname_address rest

/-- The URL `get_node_hostname` queries: the apiserver `/nodes` endpoint with a
urlencoded `labelSelector` filtering on the `kubernetes.io/hostname` label. -/
def get_node_hostname_url (kubernetes_api_url host : String) : String :=
  kubernetes_api_url ++ "/nodes?" ++ urlencode [("labelSelector", "kubernetes.io/hostname=" ++ host)]

/-- `KubeUtil.get_node_hostname(host)`: query the apiserver for the node whose
hostname label matches `host`; `.ok none` models the source returning `None`
(node count ≠ 1, or no `Hostname` address); `.error` models a raised
exception from `retrieve_json_auth`. -/
def get_node_hostname (apiNet : ApiRequest → Option (ApiResponse NodeList))
    (fs : String → Bool) (tokenFile : Option String)
    (kubernetes_api_url host : String) : Except ApiError (Option String) :=
  match retrieve_json_auth apiNet fs (get_node_hostname_url kubernetes_api_url host)
      (get_auth_token tokenFile) with
  | .error e => .error e
  | .ok node =>
      if node.items.length ≠ 1 then .ok none
      else .ok (find_hostname_address (node.items.headD {}).addresses)

/- Kubelet location (`_locate_kubelet`). -/

/-- The host chosen by `_locate_kubelet` before probing:
`os.environ.get('KUBERNETES_KUBELET_HOST') or instance.get("host")`, else the
docker hostname, upgraded to the apiserver node hostname when TLS verification
is enabled and the lookup succeeds. -/
def kubelet_host_choice (envKubeletHost : Option String) (inst : KubeConfig)
    (tls : TlsSettings) (apiNet : ApiRequest → Option (ApiResponse NodeList))
    (fs : String → Bool) (tokenFile : Option String)
    (kubernetes_api_url docker_hostname : String) : String :=
  let host := pyOr envKubeletHost inst.host
  if optStrTruthy host then host.getD ""
  else
    if tls.verify.truthy then
      match get_node_hostname apiNet fs tokenFile kubernetes_api_url docker_hostname with
      | .ok k8s_hostname => (pyOr k8s_hostname (some docker_hostname)).getD ""
      | .error _ => docker_hostname
    else docker_hostname

/-- `urljoin(base, path)` for a base of the form `scheme://host:port` (empty
path) and an absolute path reference, as used throughout the source. -/
def urljoin_abs (base path : String) : String := base ++ path

/-- The no-auth candidate `'http://%s:%s' % (host, port)` with
`port = instance.get('kubelet_port', DEFAULT_HTTP_KUBELET_PORT)`. -/
def http_probe_base (inst : KubeConfig) (host : String) : String :=
  "http://" ++ host ++ ":" ++ toString (inst.kubelet_port.getD DEFAULT_HTTP_KUBELET_PORT)

/-- The HTTPS candidate `'https://%s:%s' % (host, port)` with
`port = instance.get('kubelet_port', DEFAULT_HTTPS_KUBELET_PORT)`. -/
def https_probe_base (inst : KubeConfig) (host : String) : String :=
  "https://" ++ host ++ ":" ++ toString (inst.kubelet_port.getD DEFAULT_HTTPS_KUBELET_PORT)

/-- `KubeUtil._locate_kubelet(instance)`.  Returns the located base URL (or
`.error ()` when the HTTPS probe raises, modelling the exception escaping) and,
for the probe-order statements, the list of health URLs probed, in order. -/
def locate_kubelet (net : KubeletRequest → KubeletResult)
    (apiNet : ApiRequest → Option (ApiResponse NodeList)) (fs : String → Bool)
    (tokenFile : Option String) (envKubeletHost : Option String)
    (kubernetes_api_url docker_hostname : String) (tls : TlsSettings)
    (inst : KubeConfig) : Except Unit String × List String :=
  let host := kubelet_host_choice envKubeletHost inst tls apiNet fs tokenFile
      kubernetes_api_url docker_hostname
  let no_auth_url := http_probe_base inst host
  let test_url := urljoin_abs no_auth_url KUBELET_HEALTH_PATH
  match perform_kubelet_query net tls tokenFile test_url with
  | .resp _ => (.ok no_auth_url, [test_url])
  | .exc =>
      let https_url := https_probe_base inst host
      let test_url2 := urljoin_abs https_url KUBELET_HEALTH_PATH
      match perform_kubelet_query net tls tokenFile test_url2 with
      | .resp _ => (.ok https_url, [test_url, test_url2])
      | .exc => (.error (), [test_url, test_url2])

/- Construction (`__init__`), after the configuration has been loaded. -/

/-- The instance fields `__init__` sets on success. -/
structure KubeUtilState where
  method : String
  host_name : Option String
  kubernetes_api_url : String
  tls_settings : TlsSettings
  kubelet_api_url : String
  kubelet_host : String
  pods_list_url : String
  kube_health_url : String
  cadvisor_port : Nat
  cadvisor_url : String
  metrics_url : String
  machine_info_url : String
  last_event_collection_ts : Nat
deriving Repr, DecidableEq

/-- `KubeUtil.__init__(instance)` from the point where `instance` is in hand:
TLS settings, kubelet location (re-raising its failure), then the derived URL
fields.  `.error ()` models the exception propagating out of `__init__`, in
which case none of the kubelet-derived fields exist. -/
def kube_util_init (net : KubeletRequest → KubeletResult)
    (apiNet : ApiRequest → Option (ApiResponse NodeList)) (fs : String → Bool)
    (tokenFile : Option String)
    (envKubeletHost envServiceHost envHostname : Option String)
    (docker_hostname : String) (inst : KubeConfig) : Except Unit KubeUtilState :=
  let method := inst.method.getD DEFAULT_METHOD
  let host_name := envHostname
  let kubernetes_api_url :=
    "https://" ++ (pyOr envServiceHost (some DEFAULT_MASTER_NAME)).getD "" ++ "/api/v1"
  let tls_settings := init_tls_settings fs inst
  match locate_kubelet net apiNet fs tokenFile envKubeletHost kubernetes_api_url
      docker_hostname tls_settings inst with
  | (.error _, _) => .error ()
  | (.ok kubelet_api_url, _) =>
      if kubelet_api_url.isEmpty then .error ()
      else
        let kubelet_host := ((kubelet_api_url.splitOn ":").getD 1 "").dropWhile (· == '/')
        let cadvisor_port := inst.port.getD DEFAULT_CADVISOR_PORT
        let cadvisor_url := method ++ "://" ++ kubelet_host ++ ":" ++ toString cadvisor_port
        .ok { method := method,
              host_name := host_name,
              kubernetes_api_url := kubernetes_api_url,
              tls_settings := tls_settings,
              kubelet_api_url := kubelet_api_url,
              kubelet_host := kubelet_host,
              pods_list_url := urljoin_abs kubelet_api_url PODS_LIST_PATH,
              kube_health_url := urljoin_abs kubelet_api_url KUBELET_HEALTH_PATH,
              cadvisor_port := cadvisor_port,
              cadvisor_url := cadvisor_url,
              metrics_url := urljoin_abs cadvisor_url METRICS_PATH,
              machine_info_url := urljoin_abs cadvisor_url MACHINE_INFO_PATH,
              last_event_collection_ts := 0 }

/- Pod lists and label extraction. -/

/-- `pod.get("metadata", {})` with the keys the code reads; labels are an
ordered association list, mirroring the dict's iteration order. -/
structure PodMetadata where
  name : Option String := none
  «namespace» : Option String := none
  labels : Option (List (String × String)) := none
deriving Repr, DecidableEq

structure PodStatus where
  hostIP : Option String := none
deriving Repr, DecidableEq

structure PodSpec where
  nodeName : Option String := none
deriving Repr, DecidableEq

structure Pod where
  metadata : PodMetadata := {}
  status : PodStatus := {}
  spec : PodSpec := {}
deriving Repr, DecidableEq

/-- A pod-list payload; `items` is optional as in `pods_list.get("items")`. -/
structure PodsList where
  items : Option (List Pod) := none
deriving Repr, DecidableEq

/-- Truthiness of the optional labels dict (`None` and `{}` falsy). -/
def optLabelsTruthy : Option (List (String × String)) → Bool
  | none => false
  | some l => !l.isEmpty

/-- `defaultdict(list)` update: `kube_labels[key].append(tag)` — appends to the
existing entry, or creates the entry (at the end, insertion order) when
absent. -/
def dd_append (m : List (String × List String)) (key tag : String) :
    List (String × List String) :=
  match m with
  | [] => [(key, [tag])]
  | (k, ts) :: rest =>
      if k = key then (k, ts ++ [tag]) :: rest else (k, ts) :: dd_append rest key tag

/-- The inner loop of `extract_kube_labels`: `for k, v in labels.iteritems()`,
skipping excluded keys, appending `u"kube_%s:%s" % (k, v)` under `key`. -/
def labels_loop (excluded_keys : List String) (key : String)
    (labels : List (String × String)) (kube_labels : List (String × List String)) :
    List (String × List String) :=
  match labels with
  | [] => kube_labels
  | (k, v) :: rest =>
      if excluded_keys.contains k then labels_loop excluded_keys key rest kube_labels
      else labels_loop excluded_keys key rest (dd_append kube_labels key ("kube_" ++ k ++ ":" ++ v))

/-- The outer loop of `extract_kube_labels`: `for pod in pod_items`, acting only
on pods whose name, labels and namespace are all truthy. -/
def extract_labels_loop (excluded_keys : List String) (pods : List Pod)
    (kube_labels : List (String × List String)) : List (String × List String) :=
  match pods with
  | [] => kube_labels
  | pod :: rest =>
      let metadata := pod.metadata
      let name := metadata.name
      let nspace := metadata.«namespace»
      let labels := metadata.labels
      if optStrTruthy name && optLabelsTruthy labels && optStrTruthy nspace then
        let key := nspace.getD "" ++ "/" ++ name.getD ""
        extract_labels_loop excluded_keys rest
          (labels_loop excluded_keys key (labels.getD []) kube_labels)
      else extract_labels_loop excluded_keys rest kube_labels

/-- `KubeUtil.extract_kube_labels(pods_list, excluded_keys)`; the result is the
defaultdict as an insertion-ordered association list. -/
def extract_kube_labels (pods_list : PodsList) (excluded_keys : List String) :
    List (String × List String) :=
  extract_labels_loop excluded_keys (pods_list.items.getD []) []

/- Node identity (`get_node_info` / `_fetch_host_data`). -/

/-- The lazily-initialized instance fields `_node_ip` / `_node_name`
(`None` = not initialized). -/
structure NodeIdentity where
  node_ip : Option String
  node_name : Option String
deriving Repr, DecidableEq

/-- `self._node_ip = self._node_name = None` from `__init__`. -/
def initial_node_identity : NodeIdentity := { node_ip := none, node_name := none }

/-- The scan in `_fetch_host_data`: first pod whose `metadata.name` equals the
local `host_name` (Python `==`, so `None == None` matches). -/
def find_host_pod (host_name : Option String) : List Pod → Option Pod
  | [] => none
  | pod :: rest =>
      if pod.metadata.name == host_name then some pod else find_host_pod host_name rest

/-- `KubeUtil._fetch_host_data()`: `pods_result` is the outcome of
`retrieve_pods_list()` (`.error` = any exception, caught and logged).  On a
match, each missing field independently defaults to the empty string. -/
def fetch_host_data (host_name : Option String) (st : NodeIdentity)
    (pods_result : Except Unit PodsList) : NodeIdentity :=
  match pods_result with
  | .error _ => st
  | .ok pods_list =>
      match find_host_pod host_name (pods_list.items.getD []) with
      | none => st
      | some pod =>
          { node_ip := some (pod.status.hostIP.getD ""),
            node_name := some (pod.spec.nodeName.getD "") }

/-- `KubeUtil.get_node_info()`: refetches when either field is `None`. Returns
the new field state, the returned pair, and how many pod-list fetches this call
issued (0 or 1). -/
def get_node_info (host_name : Option String) (pods_result : Except Unit PodsList)
    (st : NodeIdentity) : NodeIdentity × (Option String × Option String) × Nat :=
  if st.node_ip.isNone || st.node_name.isNone then
    let st2 := fetch_host_data host_name st pods_result
    (st2, (st2.node_ip, st2.node_name), 1)
  else (st, (st.node_ip, st.node_name), 0)

/- Event tag extraction (`extract_event_tags`). -/

structure EventMetadata where
  «namespace» : Option String := none
deriving Repr, DecidableEq

structure EventSource where
  host : Option String := none
deriving Repr, DecidableEq

structure InvolvedObject where
  kind : Option String := none
deriving Repr, DecidableEq

/-- An event object with the keys `extract_event_tags` reads; a `none` field
models an absent key (the `'x' in d` tests). -/
structure KubeEvent where
  reason : Option String := none
  metadata : EventMetadata := {}
  source : EventSource := {}
  involvedObject : InvolvedObject := {}
deriving Repr, DecidableEq

/-- `KubeUtil.extract_event_tags(event)`. -/
def extract_event_tags (event : KubeEvent) : List String :=
  let tags : List String := []
  let tags := if event.reason.isSome then
      tags ++ ["reason:" ++ py_lower (event.reason.getD "")] else tags
  let tags := if event.metadata.«namespace».isSome then
      tags ++ ["namespace:" ++ event.metadata.«namespace».getD ""] else tags
  let tags := if event.source.host.isSome then
      tags ++ ["node_name:" ++ event.source.host.getD ""] else tags
  let tags := if event.involvedObject.kind.isSome then
      tags ++ ["object_type:" ++ py_lower (event.involvedObject.kind.getD "")] else tags
  tags

/- Helper formula and concrete fixtures used by the statements below. -/

/-- The tags contributed by one pod's label dict: one `kube_<key>:<value>` tag
per label whose key is not excluded, in label iteration order. -/
def kube_label_tags (excluded_keys : List String) (labels : List (String × String)) :
    List String :=
  (labels.filter (fun kv => !excluded_keys.contains kv.1)).map
    (fun kv => "kube_" ++ kv.1 ++ ":" ++ kv.2)

/-- The pod-qualification test of the outer `extract_kube_labels` loop:
name, labels and namespace all truthy. -/
def pod_qualifies (pod : Pod) : Bool :=
  optStrTruthy pod.metadata.name && optLabelsTruthy pod.metadata.labels &&
    optStrTruthy pod.metadata.«namespace»

/-- The `"%s/%s" % (namespace, name)` key built for a qualifying pod. -/
def pod_key (pod : Pod) : String :=
  pod.metadata.«namespace».getD "" ++ "/" ++ pod.metadata.name.getD ""

/-- What one pod contributes to the label index: its key and its ordered
non-excluded tags when it qualifies, nothing otherwise. -/
def pod_contribution (ex : List String) (pod : Pod) : Option (String × List String) :=
  if pod_qualifies pod then
    some (pod_key pod, kube_label_tags ex (pod.metadata.labels.getD []))
  else none

/-- Appending a whole tag list under one key, one `defaultdict` append at a
time. -/
def dd_extend (m : List (String × List String)) (key : String) (tags : List String) :
    List (String × List String) :=
  tags.foldl (fun m tag => dd_append m key tag) m

/-- A kubelet that answers every request with HTTP 500 (no exception raised). -/
def net_status_500 : KubeletRequest → KubeletResult :=
  fun _ => .resp { status := 500, body := "" }

/-- A kubelet that raises (connection error) on every request. -/
def net_exc : KubeletRequest → KubeletResult := fun _ => .exc

/-- An apiserver that raises a connection error on every request. -/
def api_net_none : ApiRequest → Option (ApiResponse NodeList) := fun _ => none

/-- An apiserver answering every request with status 304 Not Modified. -/
def api_net_304 : ApiRequest → Option (ApiResponse String) :=
  fun _ => some { status := 304, body := "cached" }

/-- A filesystem on which no path exists. -/
def fs_none : String → Bool := fun _ => false

/- Helper lemmas about the label-extraction loops. -/

theorem kube_label_tags_cons_mem (ex : List String) (k v : String)
    (rest : List (String × String)) (h : k ∈ ex) :
    kube_label_tags ex ((k, v) :: rest) = kube_label_tags ex rest := by
  simp [kube_label_tags, h]

theorem kube_label_tags_cons_not_mem (ex : List String) (k v : String)
    (rest : List (String × String)) (h : ¬ k ∈ ex) :
    kube_label_tags ex ((k, v) :: rest) =
      ("kube_" ++ k ++ ":" ++ v) :: kube_label_tags ex rest := by
  simp [kube_label_tags, h]

theorem labels_loop_cons_key (ex : List String) (key : String)
    (labels : List (String × String)) (acc : List String) :
    labels_loop ex key labels [(key, acc)] = [(key, acc ++ kube_label_tags ex labels)] := by
  induction labels generalizing acc with
  | nil => simp [labels_loop, kube_label_tags]
  | cons kv rest ih =>
    obtain ⟨k, v⟩ := kv
    cases h : ex.contains k with
    | true =>
      have h' : k ∈ ex := by simpa using h
      rw [kube_label_tags_cons_mem ex k v rest h']
      simpa [labels_loop, h'] using ih acc
    | false =>
      have h' : ¬ k ∈ ex := by simpa using h
      rw [kube_label_tags_cons_not_mem ex k v rest h']
      simp [labels_loop, dd_append, h', ih]

theorem labels_loop_nil_acc (ex : List String) (key : String)
    (labels : List (String × String)) :
    labels_loop ex key labels [] =
      if kube_label_tags ex labels = [] then []
      else [(key, kube_label_tags ex labels)] := by
  induction labels with
  | nil => simp [labels_loop, kube_label_tags]
  | cons kv rest ih =>
    obtain ⟨k, v⟩ := kv
    cases h : ex.contains k with
    | true =>
      have h' : k ∈ ex := by simpa using h
      rw [kube_label_tags_cons_mem ex k v rest h']
      simpa [labels_loop, h'] using ih
    | false =>
      have h' : ¬ k ∈ ex := by simpa using h
      rw [kube_label_tags_cons_not_mem ex k v rest h']
      simp [labels_loop, dd_append, h', labels_loop_cons_key]

/-- A Python-truthy string is non-empty. -/
theorem isEmpty_false_of_ne_empty (s : String) (hs : s ≠ "") : s.isEmpty = false := by
  cases hi : s.isEmpty
  · rfl
  · exact absurd ((String.isEmpty_iff s).mp hi) hs

/-- One inner label loop is one `dd_extend` of the pod's surviving tags under
its key. -/
theorem labels_loop_eq_dd_extend (ex : List String) (key : String)
    (labels : List (String × String)) (m : List (String × List String)) :
    labels_loop ex key labels m = dd_extend m key (kube_label_tags ex labels) := by
  induction labels generalizing m with
  | nil => rfl
  | cons kv rest ih =>
    obtain ⟨k, v⟩ := kv
    cases h : ex.contains k with
    | true =>
      have h' : k ∈ ex := by simpa using h
      rw [kube_label_tags_cons_mem ex k v rest h']
      simpa [labels_loop, h'] using ih m
    | false =>
      have h' : ¬ k ∈ ex := by simpa using h
      rw [kube_label_tags_cons_not_mem ex k v rest h']
      simp [labels_loop, h', dd_extend, ih]

/-- The outer pod loop folds, in pod order, exactly one contribution per
qualifying pod into the defaultdict, skipping the others. -/
theorem extract_labels_loop_eq_foldl (ex : List String) (pods : List Pod)
    (m : List (String × List String)) :
    extract_labels_loop ex pods m =
      (pods.filterMap (pod_contribution ex)).foldl
        (fun m kt => dd_extend m kt.1 kt.2) m := by
  induction pods generalizing m with
  | nil => rfl
  | cons pod rest ih =>
    cases hq : pod_qualifies pod with
    | true =>
      have hq' : (optStrTruthy pod.metadata.name && optLabelsTruthy pod.metadata.labels &&
          optStrTruthy pod.metadata.«namespace») = true := hq
      have hc : pod_contribution ex pod =
          some (pod_key pod, kube_label_tags ex (pod.metadata.labels.getD [])) := by
        simp [pod_contribution, hq]
      simp only [extract_labels_loop, hq', if_true, List.filterMap_cons, hc,
        List.foldl_cons]
      rw [labels_loop_eq_dd_extend, ih]
      rfl
    | false =>
      have hq' : (optStrTruthy pod.metadata.name && optLabelsTruthy pod.metadata.labels &&
          optStrTruthy pod.metadata.«namespace») = false := hq
      have hc : pod_contribution ex pod = none := by
        simp [pod_contribution, hq]
      simp only [extract_labels_loop, hq', List.filterMap_cons, hc]
      exact ih m

/-- `defaultdict` append under a fresh key appends a new entry at the end. -/
theorem dd_append_fresh (m : List (String × List String)) (key t : String)
    (h : ¬ key ∈ m.map Prod.fst) :
    dd_append m key t = m ++ [(key, [t])] := by
  induction m with
  | nil => rfl
  | cons e rest ih =>
    obtain ⟨k, ts⟩ := e
    simp only [List.map_cons, List.mem_cons] at h
    push_neg at h
    have hk : ¬ k = key := fun hh => h.1 hh.symm
    simp [dd_append, hk, ih h.2]

/-- `defaultdict` append at the freshly-created last entry. -/
theorem dd_append_last (m : List (String × List String)) (key : String)
    (acc : List String) (t : String) (h : ¬ key ∈ m.map Prod.fst) :
    dd_append (m ++ [(key, acc)]) key t = m ++ [(key, acc ++ [t])] := by
  induction m with
  | nil => simp [dd_append]
  | cons e rest ih =>
    obtain ⟨k, ts⟩ := e
    simp only [List.map_cons, List.mem_cons] at h
    push_neg at h
    have hk : ¬ k = key := fun hh => h.1 hh.symm
    simp [dd_append, hk, ih h.2]

theorem dd_extend_last (m : List (String × List String)) (key : String)
    (acc tags : List String) (h : ¬ key ∈ m.map Prod.fst) :
    dd_extend (m ++ [(key, acc)]) key tags = m ++ [(key, acc ++ tags)] := by
  induction tags generalizing acc with
  | nil => simp [dd_extend]
  | cons t rest ih =>
    simp only [dd_extend, List.foldl_cons]
    rw [dd_append_last m key acc t h]
    have h2 := ih (acc ++ [t])
    simp only [dd_extend] at h2
    rw [h2]
    simp

/-- Extending an absent key creates one entry at the end, holding all the
surviving tags in order — or nothing when there are no tags. -/
theorem dd_extend_fresh (m : List (String × List String)) (key : String)
    (tags : List String) (h : ¬ key ∈ m.map Prod.fst) :
    dd_extend m key tags = if tags = [] then m else m ++ [(key, tags)] := by
  cases tags with
  | nil => simp [dd_extend]
  | cons t rest =>
    simp only [dd_extend, List.foldl_cons]
    rw [dd_append_fresh m key t h]
    have h2 := dd_extend_last m key [t] rest h
    simp only [dd_extend] at h2
    rw [h2]
    simp

/-- Folding entries with pairwise-distinct keys into the defaultdict keeps
exactly the entries with surviving tags, in order. -/
theorem foldl_dd_extend_nodup (entries : List (String × List String))
    (m : List (String × List String))
    (hfresh : ∀ k ∈ entries.map Prod.fst, ¬ k ∈ m.map Prod.fst)
    (hnd : (entries.map Prod.fst).Nodup) :
    entries.foldl (fun m kt => dd_extend m kt.1 kt.2) m =
      m ++ entries.filter (fun kt => !kt.2.isEmpty) := by
  induction entries generalizing m with
  | nil => simp
  | cons e rest ih =>
    obtain ⟨key, tags⟩ := e
    simp only [List.map_cons, List.nodup_cons] at hnd
    obtain ⟨hkey, hnd2⟩ := hnd
    have hkm : ¬ key ∈ m.map Prod.fst := hfresh key (by simp)
    simp only [List.foldl_cons]
    rw [dd_extend_fresh m key tags hkm]
    cases tags with
    | nil =>
      rw [if_pos rfl]
      rw [ih m (fun k hk => hfresh k (by simp [hk])) hnd2]
      simp [List.filter_cons]
    | cons t ts =>
      rw [if_neg (by simp)]
      rw [ih (m ++ [(key, t :: ts)]) ?_ hnd2]
      · simp [List.filter_cons]
      · intro k hk
        have hk1 : ¬ k ∈ m.map Prod.fst := hfresh k (by simp [hk])
        have hk2 : k ≠ key := by
          intro hh
          subst hh
          exact hkey hk
        simp [List.map_append, List.mem_append, hk1, hk2]

/-- C8: for every pod list and excluded-key list, `extract_kube_labels` folds,
in pod order, exactly one contribution per qualifying pod — key
`<namespace>/<name>` with one `kube_<key>:<value>` tag per label whose key is
not excluded, preserving per-pod label iteration order — into the defaultdict,
and pods missing name, namespace, or labels contribute nothing at any
position; when the qualifying pods' keys are pairwise distinct the result is
literally those per-pod entries in pod order (an entry appears only when at
least one tag survives exclusion, since the defaultdict is only touched per
surviving label); in particular the single-pod input with labels {a:1, b:2}
and excluded keys [b] yields {"ns/p1": ["kube_a:1"]}. -/
theorem C8_extract_kube_labels (ex : List String) (pods pods1 pods2 : List Pod)
    (pod : Pod) :
    (extract_kube_labels { items := some pods } ex =
      (pods.filterMap (pod_contribution ex)).foldl
        (fun m kt => dd_extend m kt.1 kt.2) []) ∧
    (((pods.filterMap (pod_contribution ex)).map Prod.fst).Nodup →
      extract_kube_labels { items := some pods } ex =
        (pods.filterMap (pod_contribution ex)).filter (fun kt => !kt.2.isEmpty)) ∧
    (pod_qualifies pod = false →
      extract_kube_labels { items := some (pods1 ++ pod :: pods2) } ex =
        extract_kube_labels { items := some (pods1 ++ pods2) } ex) ∧
    (∀ name nsp labels, pod.metadata.name = some name → name ≠ "" →
      pod.metadata.«namespace» = some nsp → nsp ≠ "" →
      pod.metadata.labels = some labels → labels ≠ [] →
      pod_contribution ex pod =
        some (nsp ++ "/" ++ name, kube_label_tags ex labels)) ∧
    extract_kube_labels
        { items := some [{ metadata := { name := some "p1",
                                         «namespace» := some "ns",
                                         labels := some [("a", "1"), ("b", "2")] } },
                         { metadata := { name := some "p2",
                                         «namespace» := some "ns2",
                                         labels := some [("b", "2"), ("c", "3")] } }] }
        ["b"] =
      [("ns/p1", ["kube_a:1"]), ("ns2/p2", ["kube_c:3"])] ∧
    extract_kube_labels
        { items := some [{ metadata := { name := some "p1",
                                         «namespace» := some "ns",
                                         labels := some [("a", "1"), ("b", "2")] } }] }
        ["b"] =
      [("ns/p1", ["kube_a:1"])] := by
  refine ⟨?_, ?_, ?_, ?_, by decide, by decide⟩
  · exact extract_labels_loop_eq_foldl ex pods []
  · intro hnd
    have h1 : extract_kube_labels { items := some pods } ex =
        (pods.filterMap (pod_contribution ex)).foldl
          (fun m kt => dd_extend m kt.1 kt.2) [] :=
      extract_labels_loop_eq_foldl ex pods []
    rw [h1, foldl_dd_extend_nodup (pods.filterMap (pod_contribution ex)) []
      (by simp) hnd]
    simp
  · intro hq
    have hc : pod_contribution ex pod = none := by simp [pod_contribution, hq]
    have h1 : extract_kube_labels { items := some (pods1 ++ pod :: pods2) } ex =
        ((pods1 ++ pod :: pods2).filterMap (pod_contribution ex)).foldl
          (fun m kt => dd_extend m kt.1 kt.2) [] :=
      extract_labels_loop_eq_foldl ex (pods1 ++ pod :: pods2) []
    have h2 : extract_kube_labels { items := some (pods1 ++ pods2) } ex =
        ((pods1 ++ pods2).filterMap (pod_contribution ex)).foldl
          (fun m kt => dd_extend m kt.1 kt.2) [] :=
      extract_labels_loop_eq_foldl ex (pods1 ++ pods2) []
    rw [h1, h2]
    simp [List.filterMap_append, List.filterMap_cons, hc]
  · intro name nsp labels hn hne hns hnse hl hle
    have hq : pod_qualifies pod = true := by
      simp [pod_qualifies, hn, hns, hl, optStrTruthy, optLabelsTruthy,
        isEmpty_false_of_ne_empty name hne, isEmpty_false_of_ne_empty nsp hnse, hle]
    simp [pod_contribution, hq, pod_key, hn, hns, hl]

/-- C8 witness: the theorem applied to a two-pod list with distinct keys, to a
nameless pod skipped in the middle of a list, and to the spec's concrete
pod's contribution. -/
theorem C8_extract_kube_labels_witness :
    extract_kube_labels
        { items := some [{ metadata := { name := some "p1",
                                         «namespace» := some "ns",
                                         labels := some [("a", "1"), ("b", "2")] } },
                         { metadata := { name := some "p2",
                                         «namespace» := some "ns2",
                                         labels := some [("b", "2"), ("c", "3")] } }] }
        ["b"] =
      ([{ metadata := { name := some "p1",
                        «namespace» := some "ns",
                        labels := some [("a", "1"), ("b", "2")] } },
         { metadata := { name := some "p2",
                         «namespace» := some "ns2",
                         labels := some [("b", "2"), ("c", "3")] } }].filterMap
        (pod_contribution ["b"])).filter (fun kt => !kt.2.isEmpty) ∧
    extract_kube_labels
        { items := some ([{ metadata := { name := some "p1",
                                          «namespace» := some "ns",
                                          labels := some [("a", "1")] } }] ++
          { metadata := { name := none,
                          «namespace» := some "ns",
                          labels := some [("x", "9")] } } ::
          [{ metadata := { name := some "p2",
                           «namespace» := some "ns2",
                           labels := some [("c", "3")] } }]) } ["b"] =
      extract_kube_labels
        { items := some ([{ metadata := { name := some "p1",
                                          «namespace» := some "ns",
                                          labels := some [("a", "1")] } }] ++
          [{ metadata := { name := some "p2",
                           «namespace» := some "ns2",
                           labels := some [("c", "3")] } }]) } ["b"] ∧
    pod_contribution ["b"]
        { metadata := { name := some "p1",
                        «namespace» := some "ns",
                        labels := some [("a", "1"), ("b", "2")] } } =
      some ("ns" ++ "/" ++ "p1", kube_label_tags ["b"] [("a", "1"), ("b", "2")]) := by
  refine ⟨?_, ?_, ?_⟩
  · exact (C8_extract_kube_labels ["b"]
      [{ metadata := { name := some "p1", «namespace» := some "ns",
                       labels := some [("a", "1"), ("b", "2")] } },
       { metadata := { name := some "p2", «namespace» := some "ns2",
                       labels := some [("b", "2"), ("c", "3")] } }]
      [] [] {}).2.1 (by decide)
  · exact (C8_extract_kube_labels ["b"] []
      [{ metadata := { name := some "p1", «namespace» := some "ns",
                       labels := some [("a", "1")] } }]
      [{ metadata := { name := some "p2", «namespace» := some "ns2",
                       labels := some [("c", "3")] } }]
      { metadata := { name := none, «namespace» := some "ns",
                      labels := some [("x", "9")] } }).2.2.1 (by decide)
  · exact (C8_extract_kube_labels ["b"] [] [] []
      { metadata := { name := some "p1", «namespace» := some "ns",
                      labels := some [("a", "1"), ("b", "2")] } }).2.2.2.1
      "p1" "ns" [("a", "1"), ("b", "2")] rfl (by decide) rfl (by decide) rfl (by decide)

/-- C9: `extract_event_tags` returns at most four tags — reason (lowercased),
namespace (from metadata), node_name (from source.host), object_type (from
involvedObject.kind, lowercased) — each included exactly when the field is
present, always in the fixed order reason, namespace, node_name, object_type;
including the spec's concrete example. -/
theorem C9_extract_event_tags (event : KubeEvent) :
    extract_event_tags event =
      (if event.reason.isSome then ["reason:" ++ py_lower (event.reason.getD "")] else []) ++
      (if event.metadata.«namespace».isSome then
        ["namespace:" ++ event.metadata.«namespace».getD ""] else []) ++
      (if event.source.host.isSome then
        ["node_name:" ++ event.source.host.getD ""] else []) ++
      (if event.involvedObject.kind.isSome then
        ["object_type:" ++ py_lower (event.involvedObject.kind.getD "")] else []) ∧
    (extract_event_tags event).length ≤ 4 ∧
    extract_event_tags { reason := some "Killing",
                         metadata := { «namespace» := some "ns" },
                         source := { host := some "node1" },
                         involvedObject := { kind := some "Pod" } } =
      ["reason:killing", "namespace:ns", "node_name:node1", "object_type:pod"] := by
  obtain ⟨r, ⟨nsp⟩, ⟨sh⟩, ⟨okind⟩⟩ := event
  refine ⟨?_, ?_, by decide⟩
  · cases r <;> cases nsp <;> cases sh <;> cases okind <;> simp [extract_event_tags]
  · cases r <;> cases nsp <;> cases sh <;> cases okind <;> simp [extract_event_tags]

/-- C6: `_init_tls_settings` records a client-certificate credential exactly
when both a cert path and a key path are present in the configuration and both
files exist on disk (stated under the fact that `os.path.exists ''` is false,
so a present-but-empty path — falsy in Python — fails the existence test on
both sides); verification is the CA-cert path when a non-empty one is
configured, and otherwise the configured boolean, defaulting to true; any
configuration lacking cert or key yields no client-certificate credential. -/
theorem C6_init_tls_settings (fs : String → Bool) (inst : KubeConfig)
    (crt key c : String) :
    (fs "" = false →
      ((init_tls_settings fs inst).kubelet_client_cert = some (crt, key) ↔
        inst.kubelet_client_crt = some crt ∧ inst.kubelet_client_key = some key ∧
          fs crt = true ∧ fs key = true)) ∧
    (inst.kubelet_cert = some c → c ≠ "" →
      (init_tls_settings fs inst).verify = Verify.path c) ∧
    (inst.kubelet_cert = none ∨ inst.kubelet_cert = some "" →
      (init_tls_settings fs inst).verify =
        Verify.bool (inst.kubelet_tls_verify.getD DEFAULT_TLS_VERIFY)) ∧
    (inst.kubelet_client_crt = none ∨ inst.kubelet_client_key = none →
      (init_tls_settings fs inst).kubelet_client_cert = none) := by
  have hie : ∀ s : String, s ≠ "" → s.isEmpty = false := by
    intro s hs
    cases hi : s.isEmpty
    · rfl
    · exact absurd ((String.isEmpty_iff s).mp hi) hs
  refine ⟨?_, ?_, ?_, ?_⟩
  · intro hfs
    cases hcrt : inst.kubelet_client_crt with
    | none => simp [init_tls_settings, hcrt]
    | some a =>
      cases hkey : inst.kubelet_client_key with
      | none => simp [init_tls_settings, hcrt, hkey]
      | some b =>
        simp only [init_tls_settings, hcrt, hkey]
        by_cases hcond : (!a.isEmpty && !b.isEmpty && fs a && fs b) = true
        · rw [if_pos hcond]
          simp only [Bool.and_eq_true] at hcond
          obtain ⟨⟨⟨hna, hnb⟩, hfa⟩, hfb⟩ := hcond
          constructor
          · intro h
            rw [Option.some.injEq, Prod.mk.injEq] at h
            obtain ⟨h1, h2⟩ := h
            subst h1; subst h2
            exact ⟨rfl, rfl, hfa, hfb⟩
          · rintro ⟨h1, h2, h3, h4⟩
            rw [Option.some.injEq] at h1 h2
            subst h1; subst h2
            rfl
        · rw [if_neg hcond]
          constructor
          · intro h; exact absurd h (by simp)
          · rintro ⟨h1, h2, h3, h4⟩
            rw [Option.some.injEq] at h1 h2
            subst h1; subst h2
            exfalso
            have hna : a.isEmpty = false := by
              cases hi : a.isEmpty
              · rfl
              · have ha : a = "" := (String.isEmpty_iff a).mp hi
                rw [ha, hfs] at h3
                exact absurd h3 (by simp)
            have hnb : b.isEmpty = false := by
              cases hi : b.isEmpty
              · rfl
              · have hb : b = "" := (String.isEmpty_iff b).mp hi
                rw [hb, hfs] at h4
                exact absurd h4 (by simp)
            exact hcond (by simp [hna, hnb, h3, h4])
  · intro hceq hcne
    simp [init_tls_settings, hceq, hie c hcne]
  · have hee : "".isEmpty = true := rfl
    rintro (hc | hc) <;>
      cases hv : inst.kubelet_tls_verify <;> simp [init_tls_settings, hc, hv, hee]
  · rintro (h | h)
    · simp [init_tls_settings, h]
    · cases hcrt : inst.kubelet_client_crt <;> simp [init_tls_settings, h, hcrt]

/-- C6 witness: the theorem applied to a configuration with both cert files
present on disk, a configuration with a CA cert, and the empty
configuration. -/
theorem C6_init_tls_settings_witness :
    (init_tls_settings (fun p => p == "/crt" || p == "/key")
        { kubelet_client_crt := some "/crt",
          kubelet_client_key := some "/key" }).kubelet_client_cert =
      some ("/crt", "/key") ∧
    (init_tls_settings fs_none { kubelet_cert := some "/ca" }).verify =
      Verify.path "/ca" ∧
    (init_tls_settings fs_none {}).verify = Verify.bool true ∧
    (init_tls_settings fs_none {}).kubelet_client_cert = none := by
  refine ⟨?_, ?_, ?_, ?_⟩
  · exact ((C6_init_tls_settings (fun p => p == "/crt" || p == "/key")
      { kubelet_client_crt := some "/crt", kubelet_client_key := some "/key" }
      "/crt" "/key" "").1 (by decide)).mpr ⟨rfl, rfl, by decide, by decide⟩
  · exact (C6_init_tls_settings fs_none { kubelet_cert := some "/ca" }
      "" "" "/ca").2.1 rfl (by decide)
  · have h := (C6_init_tls_settings fs_none {} "" "" "").2.2.1 (Or.inl rfl)
    simpa using h
  · exact (C6_init_tls_settings fs_none {} "" "" "").2.2.2 (Or.inl rfl)

/-- C3: for every `perform_kubelet_query` call — which issues exactly the
request `kubelet_request` describes — a configured client certificate is sent
and no `Authorization` header is attached; without a client cert, an
`https`-scheme URL (the code's test: `url.lower().startswith('https')`) gets
`Authorization: Bearer <token>` with the token read from the token file on
that very call (the file contents are a per-call argument, so a rotated token
is picked up); and an `http`-scheme URL with no client cert gets no auth
header. -/
theorem C3_perform_kubelet_query_auth (net : KubeletRequest → KubeletResult)
    (tls : TlsSettings) (tokenFile : Option String) (url : String)
    (verbose : Bool) (timeout : Nat) :
    perform_kubelet_query net tls tokenFile url verbose timeout =
      net (kubelet_request tls tokenFile url verbose timeout) ∧
    (∀ c, tls.kubelet_client_cert = some c →
      (kubelet_request tls tokenFile url verbose timeout).cert = some c ∧
      (kubelet_request tls tokenFile url verbose timeout).authHeader = none) ∧
    (∀ t, tls.kubelet_client_cert = none → tokenFile = some t →
      py_startswith (py_lower url) "https" = true →
      (kubelet_request tls tokenFile url verbose timeout).authHeader =
        some ("Bearer " ++ t)) ∧
    (tls.kubelet_client_cert = none → py_startswith (py_lower url) "https" = false →
      (kubelet_request tls tokenFile url verbose timeout).authHeader = none) := by
  refine ⟨rfl, ?_, ?_, ?_⟩
  · intro c hc
    constructor
    · simp [kubelet_request, hc]
    · simp [kubelet_request, hc]
  · intro t hc ht hs
    simp [kubelet_request, hc, ht, hs, get_auth_token, pyFormatOpt]
  · intro hc hs
    simp [kubelet_request, hc, hs]

/-- C3 witness: a cert-less HTTPS query carries the bearer header, a query with
a client cert carries the cert and no header, and a cert-less HTTP query
carries no header. -/
theorem C3_perform_kubelet_query_auth_witness :
    (kubelet_request { kubelet_client_cert := none, verify := Verify.bool true }
        (some "tok") "https://h:10250/healthz" true 10).authHeader =
      some ("Bearer " ++ "tok") ∧
    (kubelet_request { kubelet_client_cert := some ("/crt", "/key"), verify := Verify.bool true }
        (some "tok") "https://h:10250/healthz" true 10).cert = some ("/crt", "/key") ∧
    (kubelet_request { kubelet_client_cert := some ("/crt", "/key"), verify := Verify.bool true }
        (some "tok") "https://h:10250/healthz" true 10).authHeader = none ∧
    (kubelet_request { kubelet_client_cert := none, verify := Verify.bool true }
        (some "tok") "http://h:10255/healthz" true 10).authHeader = none := by
  refine ⟨?_, ?_, ?_, ?_⟩
  · exact (C3_perform_kubelet_query_auth net_exc
      { kubelet_client_cert := none, verify := Verify.bool true }
      (some "tok") "https://h:10250/healthz" true 10).2.2.1 "tok" rfl rfl (by decide)
  · exact ((C3_perform_kubelet_query_auth net_exc
      { kubelet_client_cert := some ("/crt", "/key"), verify := Verify.bool true }
      (some "tok") "https://h:10250/healthz" true 10).2.1 ("/crt", "/key") rfl).1
  · exact ((C3_perform_kubelet_query_auth net_exc
      { kubelet_client_cert := some ("/crt", "/key"), verify := Verify.bool true }
      (some "tok") "https://h:10250/healthz" true 10).2.1 ("/crt", "/key") rfl).2
  · exact (C3_perform_kubelet_query_auth net_exc
      { kubelet_client_cert := none, verify := Verify.bool true }
      (some "tok") "http://h:10255/healthz" true 10).2.2.2 rfl (by decide)

/-- C4 counterexample: the claim says `retrieve_json_auth` raises for *every*
non-2xx status, but the source calls `requests`' `raise_for_status`, which
raises only for 4xx/5xx.  Concretely, a server answering 304 Not Modified — a
non-2xx status — makes `retrieve_json_auth` return the parsed body instead of
raising. -/
theorem C4_retrieve_json_auth_counterexample :
    (¬ (200 ≤ 304 ∧ 304 ≤ 299)) ∧
    retrieve_json_auth api_net_304 fs_none "https://kubernetes/api/v1/nodes"
        (some "tok") 10 none = .ok "cached" := by
  exact ⟨by decide, rfl⟩

/-- C4 (amended): `retrieve_json_auth` always attaches the given bearer token;
when no explicit verify argument is supplied it verifies against the
well-known CA-cert path if that file exists and otherwise disables
verification; it raises an error for every HTTP status in `[400, 600)` (in
particular 500) and does not raise for status 200, returning the parsed JSON
body. -/
theorem C4_retrieve_json_auth_amended {α : Type}
    (net : ApiRequest → Option (ApiResponse α)) (fs : String → Bool)
    (url t : String) (timeout : Nat) (verify : Option Verify) :
    (api_request fs url (some t) timeout verify).authHeader = "Bearer " ++ t ∧
    (api_request fs url (some t) timeout none).verify =
      (if fs CA_CRT_PATH then Verify.path CA_CRT_PATH else Verify.bool false) ∧
    (∀ r, net (api_request fs url (some t) timeout verify) = some r →
      (400 ≤ r.status → r.status < 600 →
        retrieve_json_auth net fs url (some t) timeout verify =
          .error (.httpStatus r.status)) ∧
      (r.status = 200 →
        retrieve_json_auth net fs url (some t) timeout verify = .ok r.body)) := by
  refine ⟨rfl, ?_, ?_⟩
  · cases h : fs CA_CRT_PATH <;> simp [api_request, h]
  · intro r hr
    constructor
    · intro h4 h6
      have hrs : raise_for_status r.status = true := by
        simp [raise_for_status, h4, h6]
      simp [retrieve_json_auth, hr, hrs]
    · intro h200
      have hrs : raise_for_status r.status = false := by
        simp [raise_for_status, h200]
      simp [retrieve_json_auth, hr, hrs]

/-- C4 witness: the amended theorem applied to a server answering 500 (error
raised) and to one answering 200 (body returned). -/
theorem C4_retrieve_json_auth_witness :
    retrieve_json_auth (fun _ => some { status := 500, body := "oops" })
        fs_none "https://kubernetes/api/v1/nodes" (some "tok") 10 none =
      .error (.httpStatus 500) ∧
    retrieve_json_auth (fun _ => some { status := 200, body := "okbody" })
        fs_none "https://kubernetes/api/v1/nodes" (some "tok") 10 none =
      .ok "okbody" ∧
    (api_request fs_none "https://kubernetes/api/v1/nodes" (some "tok") 10 none).authHeader =
      "Bearer " ++ "tok" := by
  refine ⟨?_, ?_, ?_⟩
  · exact (((C4_retrieve_json_auth_amended
      (fun _ => some { status := 500, body := "oops" }) fs_none
      "https://kubernetes/api/v1/nodes" "tok" 10 none).2.2
      { status := 500, body := "oops" } rfl).1 (by decide) (by decide))
  · exact (((C4_retrieve_json_auth_amended
      (fun _ => some { status := 200, body := "okbody" }) fs_none
      "https://kubernetes/api/v1/nodes" "tok" 10 none).2.2
      { status := 200, body := "okbody" } rfl).2 rfl)
  · exact (C4_retrieve_json_auth_amended api_net_none fs_none
      "https://kubernetes/api/v1/nodes" "tok" 10 none).1

/-- C7: when the pod-list retrieval inside `_fetch_host_data` fails, both
identity fields stay `none` (not the empty string) and a later `get_node_info`
call issues the fetch again; when a pod matching the local host name is found
with `status.hostIP` and `spec.nodeName` present, a subsequent query returns
that pair and no further call re-issues the fetch (count 0); and when the
matching pod lacks `hostIP` or `nodeName`, each missing field independently
defaults to the empty string (`getD ""`). -/
theorem C7_node_identity (hn : Option String) (pods : PodsList) (pod : Pod)
    (r : Except Unit PodsList) :
    (get_node_info hn (.error ()) initial_node_identity =
      (initial_node_identity, (none, none), 1)) ∧
    ((get_node_info hn r
        (get_node_info hn (.error ()) initial_node_identity).1).2.2 = 1) ∧
    (∀ ip nodename, find_host_pod hn (pods.items.getD []) = some pod →
      pod.status.hostIP = some ip → pod.spec.nodeName = some nodename →
      (get_node_info hn (.ok pods) initial_node_identity).2.1 =
        (some ip, some nodename) ∧
      get_node_info hn r (get_node_info hn (.ok pods) initial_node_identity).1 =
        ((get_node_info hn (.ok pods) initial_node_identity).1,
         (some ip, some nodename), 0)) ∧
    (find_host_pod hn (pods.items.getD []) = some pod →
      (fetch_host_data hn initial_node_identity (.ok pods)).node_ip =
          some (pod.status.hostIP.getD "") ∧
      (fetch_host_data hn initial_node_identity (.ok pods)).node_name =
          some (pod.spec.nodeName.getD "")) := by
  refine ⟨?_, ?_, ?_, ?_⟩
  · simp [get_node_info, fetch_host_data, initial_node_identity]
  · simp [get_node_info, fetch_host_data, initial_node_identity]
  · intro ip nodename hfind hip hname
    have hfetch : fetch_host_data hn { node_ip := none, node_name := none } (.ok pods) =
        { node_ip := some ip, node_name := some nodename } := by
      simp [fetch_host_data, hfind, hip, hname]
    constructor
    · simp [get_node_info, initial_node_identity, hfetch]
    · simp [get_node_info, initial_node_identity, hfetch]
  · intro hfind
    constructor
    · simp [fetch_host_data, hfind]
    · simp [fetch_host_data, hfind]

/-- C7 witness: the theorem applied to a failing fetch and to the spec's
concrete pod (`hostIP = 10.0.0.5`, `nodeName = node-a`). -/
theorem C7_node_identity_witness :
    get_node_info (some "pod-1") (.error ()) initial_node_identity =
      (initial_node_identity, (none, none), 1) ∧
    (get_node_info (some "pod-1")
        (.ok { items := some [{ metadata := { name := some "pod-1" },
                                status := { hostIP := some "10.0.0.5" },
                                spec := { nodeName := some "node-a" } }] })
        initial_node_identity).2.1 = (some "10.0.0.5", some "node-a") ∧
    get_node_info (some "pod-1") (.error ())
        (get_node_info (some "pod-1")
          (.ok { items := some [{ metadata := { name := some "pod-1" },
                                  status := { hostIP := some "10.0.0.5" },
                                  spec := { nodeName := some "node-a" } }] })
          initial_node_identity).1 =
      ((get_node_info (some "pod-1")
          (.ok { items := some [{ metadata := { name := some "pod-1" },
                                  status := { hostIP := some "10.0.0.5" },
                                  spec := { nodeName := some "node-a" } }] })
          initial_node_identity).1,
       (some "10.0.0.5", some "node-a"), 0) := by
  refine ⟨?_, ?_, ?_⟩
  · exact (C7_node_identity (some "pod-1") { items := none } {} (.error ())).1
  · exact ((C7_node_identity (some "pod-1")
      { items := some [{ metadata := { name := some "pod-1" },
                         status := { hostIP := some "10.0.0.5" },
                         spec := { nodeName := some "node-a" } }] }
      { metadata := { name := some "pod-1" },
        status := { hostIP := some "10.0.0.5" },
        spec := { nodeName := some "node-a" } } (.error ())).2.2.1
      "10.0.0.5" "node-a" (by decide) rfl rfl).1
  · exact ((C7_node_identity (some "pod-1")
      { items := some [{ metadata := { name := some "pod-1" },
                         status := { hostIP := some "10.0.0.5" },
                         spec := { nodeName := some "node-a" } }] }
      { metadata := { name := some "pod-1" },
        status := { hostIP := some "10.0.0.5" },
        spec := { nodeName := some "node-a" } } (.error ())).2.2.1
      "10.0.0.5" "node-a" (by decide) rfl rfl).2

/-- C10: both kubelet probes read the single `kubelet_port` configuration key:
whenever the key is supplied both candidate URLs carry that identical port,
and the distinct defaults 10255 (HTTP) and 10250 (HTTPS) apply only when the
key is absent; every locator run probes exactly these candidates (the HTTP one
always, the HTTPS one only as fallback). -/
theorem C10_single_port_key (inst : KubeConfig) (host : String) (p : Nat) :
    (inst.kubelet_port = some p →
      http_probe_base inst host = "http://" ++ host ++ ":" ++ toString p ∧
      https_probe_base inst host = "https://" ++ host ++ ":" ++ toString p) ∧
    (inst.kubelet_port = none →
      http_probe_base inst host =
        "http://" ++ host ++ ":" ++ toString DEFAULT_HTTP_KUBELET_PORT ∧
      https_probe_base inst host =
        "https://" ++ host ++ ":" ++ toString DEFAULT_HTTPS_KUBELET_PORT) ∧
    (∀ net apiNet fs tokenFile envH apiUrl docker tls,
      host = kubelet_host_choice envH inst tls apiNet fs tokenFile apiUrl docker →
      (locate_kubelet net apiNet fs tokenFile envH apiUrl docker tls inst).2 =
          [urljoin_abs (http_probe_base inst host) KUBELET_HEALTH_PATH] ∨
      (locate_kubelet net apiNet fs tokenFile envH apiUrl docker tls inst).2 =
          [urljoin_abs (http_probe_base inst host) KUBELET_HEALTH_PATH,
           urljoin_abs (https_probe_base inst host) KUBELET_HEALTH_PATH]) := by
  refine ⟨?_, ?_, ?_⟩
  · intro h
    exact ⟨by simp [http_probe_base, h], by simp [https_probe_base, h]⟩
  · intro h
    exact ⟨by simp [http_probe_base, h], by simp [https_probe_base, h]⟩
  · intro net apiNet fs tokenFile envH apiUrl docker tls hh
    subst hh
    simp only [locate_kubelet]
    cases h1 : perform_kubelet_query net tls tokenFile
        (urljoin_abs (http_probe_base inst
          (kubelet_host_choice envH inst tls apiNet fs tokenFile apiUrl docker))
          KUBELET_HEALTH_PATH) with
    | resp r => left; simp [h1]
    | exc =>
      cases h2 : perform_kubelet_query net tls tokenFile
          (urljoin_abs (https_probe_base inst
            (kubelet_host_choice envH inst tls apiNet fs tokenFile apiUrl docker))
            KUBELET_HEALTH_PATH) with
      | resp r => right; simp [h1, h2]
      | exc => right; simp [h1, h2]

/-- C10 witness: with `kubelet_port = 7777` both candidates use port 7777;
with the key absent the defaults differ; and a locator run against an
unreachable kubelet probes exactly the HTTP then the HTTPS candidate. -/
theorem C10_single_port_key_witness :
    http_probe_base { kubelet_port := some 7777 } "h" =
      "http://" ++ "h" ++ ":" ++ toString 7777 ∧
    https_probe_base { kubelet_port := some 7777 } "h" =
      "https://" ++ "h" ++ ":" ++ toString 7777 ∧
    http_probe_base {} "h" =
      "http://" ++ "h" ++ ":" ++ toString DEFAULT_HTTP_KUBELET_PORT ∧
    ((locate_kubelet net_exc api_net_none fs_none none (some "h") "u" "d"
        { kubelet_client_cert := none, verify := Verify.bool true } {}).2 =
      [urljoin_abs (http_probe_base {} "h") KUBELET_HEALTH_PATH] ∨
     (locate_kubelet net_exc api_net_none fs_none none (some "h") "u" "d"
        { kubelet_client_cert := none, verify := Verify.bool true } {}).2 =
      [urljoin_abs (http_probe_base {} "h") KUBELET_HEALTH_PATH,
       urljoin_abs (https_probe_base {} "h") KUBELET_HEALTH_PATH]) := by
  refine ⟨?_, ?_, ?_, ?_⟩
  · exact ((C10_single_port_key { kubelet_port := some 7777 } "h" 7777).1 rfl).1
  · exact ((C10_single_port_key { kubelet_port := some 7777 } "h" 7777).1 rfl).2
  · exact ((C10_single_port_key {} "h" 0).2.1 rfl).1
  · exact (C10_single_port_key {} "h" 0).2.2 net_exc api_net_none fs_none none
      (some "h") "u" "d" { kubelet_client_cert := none, verify := Verify.bool true } rfl

/-- C1 counterexample: the claim counts a non-2xx status as a failure of the
HTTP probe that must trigger the HTTPS probe, but `perform_kubelet_query`
returns the response uninspected and `_locate_kubelet` only falls through on a
raised exception.  With every request answered 500 (non-2xx, no exception),
the locator accepts the HTTP endpoint: the returned base URL has scheme
`http` and exactly one health URL was probed — no HTTPS probe — where the
claim requires an HTTPS-scheme result. -/
theorem C1_locator_counterexample :
    (¬ (200 ≤ 500 ∧ 500 ≤ 299)) ∧
    locate_kubelet net_status_500 api_net_none fs_none none (some "h")
        "https://kubernetes/api/v1" "dock"
        { kubelet_client_cert := none, verify := Verify.bool true } {} =
      (.ok "http://h:10255", ["http://h:10255/healthz"]) := by
  exact ⟨by decide, rfl⟩

/-- C1 (amended): for every locator run the HTTP probe at the health path is
attempted first; if that GET returns a response object — any status — the
returned base URL has scheme `http` and no HTTPS probe is issued; if the HTTP
probe raises (connection error, timeout — but not a non-2xx response, which
counts as success), the locator probes the HTTPS candidate at the health path
with the resolved TLS settings, and when that probe returns a response the
returned base URL has scheme `https`. -/
theorem C1_locator_probe_order (net : KubeletRequest → KubeletResult)
    (apiNet : ApiRequest → Option (ApiResponse NodeList)) (fs : String → Bool)
    (tokenFile : Option String) (envH : Option String) (apiUrl docker : String)
    (tls : TlsSettings) (inst : KubeConfig) (host : String)
    (hhost : host = kubelet_host_choice envH inst tls apiNet fs tokenFile apiUrl docker) :
    ((locate_kubelet net apiNet fs tokenFile envH apiUrl docker tls inst).2.head? =
      some (urljoin_abs (http_probe_base inst host) KUBELET_HEALTH_PATH)) ∧
    (∀ r, net (kubelet_request tls tokenFile
        (urljoin_abs (http_probe_base inst host) KUBELET_HEALTH_PATH) true 10) = .resp r →
      locate_kubelet net apiNet fs tokenFile envH apiUrl docker tls inst =
        (.ok (http_probe_base inst host),
         [urljoin_abs (http_probe_base inst host) KUBELET_HEALTH_PATH])) ∧
    (net (kubelet_request tls tokenFile
        (urljoin_abs (http_probe_base inst host) KUBELET_HEALTH_PATH) true 10) = .exc →
      ∀ r, net (kubelet_request tls tokenFile
        (urljoin_abs (https_probe_base inst host) KUBELET_HEALTH_PATH) true 10) = .resp r →
      locate_kubelet net apiNet fs tokenFile envH apiUrl docker tls inst =
        (.ok (https_probe_base inst host),
         [urljoin_abs (http_probe_base inst host) KUBELET_HEALTH_PATH,
          urljoin_abs (https_probe_base inst host) KUBELET_HEALTH_PATH])) ∧
    http_probe_base inst host =
      "http://" ++ (host ++ ":" ++ toString (inst.kubelet_port.getD DEFAULT_HTTP_KUBELET_PORT)) ∧
    https_probe_base inst host =
      "https://" ++ (host ++ ":" ++ toString (inst.kubelet_port.getD DEFAULT_HTTPS_KUBELET_PORT)) := by
  subst hhost
  refine ⟨?_, ?_, ?_, ?_, ?_⟩
  · simp only [locate_kubelet]
    cases h1 : perform_kubelet_query net tls tokenFile
        (urljoin_abs (http_probe_base inst
          (kubelet_host_choice envH inst tls apiNet fs tokenFile apiUrl docker))
          KUBELET_HEALTH_PATH) with
    | resp r => simp [h1]
    | exc =>
      cases h2 : perform_kubelet_query net tls tokenFile
          (urljoin_abs (https_probe_base inst
            (kubelet_host_choice envH inst tls apiNet fs tokenFile apiUrl docker))
            KUBELET_HEALTH_PATH) with
      | resp r => simp [h1, h2]
      | exc => simp [h1, h2]
  · intro r h1
    have h1' : perform_kubelet_query net tls tokenFile
        (urljoin_abs (http_probe_base inst
          (kubelet_host_choice envH inst tls apiNet fs tokenFile apiUrl docker))
          KUBELET_HEALTH_PATH) = .resp r := h1
    simp [locate_kubelet, h1']
  · intro h1 r h2
    have h1' : perform_kubelet_query net tls tokenFile
        (urljoin_abs (http_probe_base inst
          (kubelet_host_choice envH inst tls apiNet fs tokenFile apiUrl docker))
          KUBELET_HEALTH_PATH) = .exc := h1
    have h2' : perform_kubelet_query net tls tokenFile
        (urljoin_abs (https_probe_base inst
          (kubelet_host_choice envH inst tls apiNet fs tokenFile apiUrl docker))
          KUBELET_HEALTH_PATH) = .resp r := h2
    simp [locate_kubelet, h1', h2']
  · simp [http_probe_base, String.append_assoc]
  · simp [https_probe_base, String.append_assoc]

/-- C1 witness: with a kubelet answering the HTTP probe, the located URL has
scheme `http` and only the HTTP health URL is probed; with one raising on HTTP
and answering HTTPS, the located URL has scheme `https`. -/
theorem C1_locator_probe_order_witness :
    locate_kubelet (fun _ => .resp { status := 200, body := "ok" }) api_net_none
        fs_none none (some "h") "u" "d"
        { kubelet_client_cert := none, verify := Verify.bool true } {} =
      (.ok (http_probe_base {} "h"),
       [urljoin_abs (http_probe_base {} "h") KUBELET_HEALTH_PATH]) ∧
    locate_kubelet
        (fun q => if q.url = urljoin_abs (http_probe_base {} "h") KUBELET_HEALTH_PATH
          then .exc else .resp { status := 200, body := "ok" })
        api_net_none fs_none none (some "h") "u" "d"
        { kubelet_client_cert := none, verify := Verify.bool true } {} =
      (.ok (https_probe_base {} "h"),
       [urljoin_abs (http_probe_base {} "h") KUBELET_HEALTH_PATH,
        urljoin_abs (https_probe_base {} "h") KUBELET_HEALTH_PATH]) := by
  constructor
  · exact (C1_locator_probe_order (fun _ => .resp { status := 200, body := "ok" })
      api_net_none fs_none none (some "h") "u" "d"
      { kubelet_client_cert := none, verify := Verify.bool true } {} "h" (by decide)).2.1
      { status := 200, body := "ok" } rfl
  · exact (C1_locator_probe_order
      (fun q => if q.url = urljoin_abs (http_probe_base {} "h") KUBELET_HEALTH_PATH
        then .exc else .resp { status := 200, body := "ok" })
      api_net_none fs_none none (some "h") "u" "d"
      { kubelet_client_cert := none, verify := Verify.bool true } {} "h" (by decide)).2.2.1
      (by decide) { status := 200, body := "ok" } (by decide)

/-- C5: the locator's host is chosen in order — the `KUBERNETES_KUBELET_HOST`
environment value if truthy, else the configuration's `host` entry if truthy,
else the container-runtime (docker) hostname; in that last case, when TLS
verification is enabled the locator asks the apiserver for the canonical node
hostname, filtering nodes by the `kubernetes.io/hostname` label equal to the
runtime hostname, prefers that name when the lookup succeeds with a truthy
name, and falls back to the runtime hostname on any error of the lookup (or a
`None` result). -/
theorem C5_host_selection (envH : Option String) (inst : KubeConfig)
    (tls : TlsSettings) (apiNet : ApiRequest → Option (ApiResponse NodeList))
    (fs : String → Bool) (tokenFile : Option String) (apiUrl docker : String) :
    (∀ h, envH = some h → h ≠ "" →
      kubelet_host_choice envH inst tls apiNet fs tokenFile apiUrl docker = h) ∧
    (∀ h, optStrTruthy envH = false → inst.host = some h → h ≠ "" →
      kubelet_host_choice envH inst tls apiNet fs tokenFile apiUrl docker = h) ∧
    (optStrTruthy envH = false → optStrTruthy inst.host = false →
      tls.verify.truthy = false →
      kubelet_host_choice envH inst tls apiNet fs tokenFile apiUrl docker = docker) ∧
    (optStrTruthy envH = false → optStrTruthy inst.host = false →
      tls.verify.truthy = true →
      (∀ k, get_node_hostname apiNet fs tokenFile apiUrl docker = .ok (some k) →
        k ≠ "" →
        kubelet_host_choice envH inst tls apiNet fs tokenFile apiUrl docker = k) ∧
      (∀ e, get_node_hostname apiNet fs tokenFile apiUrl docker = .error e →
        kubelet_host_choice envH inst tls apiNet fs tokenFile apiUrl docker = docker) ∧
      (get_node_hostname apiNet fs tokenFile apiUrl docker = .ok none →
        kubelet_host_choice envH inst tls apiNet fs tokenFile apiUrl docker = docker)) ∧
    (∀ host, get_node_hostname_url apiUrl host =
      apiUrl ++ "/nodes?" ++
        urlencode [("labelSelector", "kubernetes.io/hostname=" ++ host)]) ∧
    get_node_hostname_url "https://kubernetes/api/v1" "myhost" =
      "https://kubernetes/api/v1/nodes?labelSelector=kubernetes.io%2Fhostname%3Dmyhost" := by
  refine ⟨?_, ?_, ?_, ?_, fun _ => rfl, by decide⟩
  · intro h he hne
    subst he
    have ht : optStrTruthy (some h) = true := by
      simp [optStrTruthy, isEmpty_false_of_ne_empty h hne]
    have hp : pyOr (some h) inst.host = some h := by simp [pyOr, ht]
    simp [kubelet_host_choice, hp, ht]
  · intro h he hc hne
    have ht : optStrTruthy (some h) = true := by
      simp [optStrTruthy, isEmpty_false_of_ne_empty h hne]
    have hp : pyOr envH inst.host = some h := by simp [pyOr, he, hc]
    simp [kubelet_host_choice, hp, ht]
  · intro he hc hv
    have hp : pyOr envH inst.host = inst.host := by simp [pyOr, he]
    simp [kubelet_host_choice, hp, hc, hv]
  · intro he hc hv
    have hp : pyOr envH inst.host = inst.host := by simp [pyOr, he]
    refine ⟨?_, ?_, ?_⟩
    · intro k hk hkne
      have htk : optStrTruthy (some k) = true := by
        simp [optStrTruthy, isEmpty_false_of_ne_empty k hkne]
      have hks : pyOr (some k) (some docker) = some k := by simp [pyOr, htk]
      simp [kubelet_host_choice, hp, hc, hv, hk, hks]
    · intro e hk
      simp [kubelet_host_choice, hp, hc, hv, hk]
    · intro hk
      have hks : pyOr none (some docker) = some docker := by
        simp [pyOr, optStrTruthy]
      simp [kubelet_host_choice, hp, hc, hv, hk, hks]

/-- An apiserver with exactly one node carrying a `Hostname` address. -/
def api_net_one_node : ApiRequest → Option (ApiResponse NodeList) :=
  fun _ => some { status := 200,
                  body := { items := [{ addresses :=
                    [{ type := some "Hostname", address := "k8s-node-1" }] }] } }

/-- C5 witness: the theorem applied at each selection tier — environment
override, configuration host, docker hostname with verification off, apiserver
canonical hostname, and connection-error fallback — plus the concrete lookup
URL. -/
theorem C5_host_selection_witness :
    kubelet_host_choice (some "envhost") {}
        { kubelet_client_cert := none, verify := Verify.bool true }
        api_net_none fs_none none "u" "d" = "envhost" ∧
    kubelet_host_choice none { host := some "confhost" }
        { kubelet_client_cert := none, verify := Verify.bool true }
        api_net_none fs_none none "u" "d" = "confhost" ∧
    kubelet_host_choice none {}
        { kubelet_client_cert := none, verify := Verify.bool false }
        api_net_none fs_none none "u" "d" = "d" ∧
    kubelet_host_choice none {}
        { kubelet_client_cert := none, verify := Verify.bool true }
        api_net_one_node fs_none none "u" "d" = "k8s-node-1" ∧
    kubelet_host_choice none {}
        { kubelet_client_cert := none, verify := Verify.bool true }
        api_net_none fs_none none "u" "d" = "d" ∧
    get_node_hostname_url "https://kubernetes/api/v1" "myhost" =
      "https://kubernetes/api/v1/nodes?labelSelector=kubernetes.io%2Fhostname%3Dmyhost" := by
  refine ⟨?_, ?_, ?_, ?_, ?_, ?_⟩
  · exact (C5_host_selection (some "envhost") {}
      { kubelet_client_cert := none, verify := Verify.bool true }
      api_net_none fs_none none "u" "d").1 "envhost" rfl (by decide)
  · exact (C5_host_selection none { host := some "confhost" }
      { kubelet_client_cert := none, verify := Verify.bool true }
      api_net_none fs_none none "u" "d").2.1 "confhost" rfl rfl (by decide)
  · exact (C5_host_selection none {}
      { kubelet_client_cert := none, verify := Verify.bool false }
      api_net_none fs_none none "u" "d").2.2.1 rfl rfl rfl
  · exact ((C5_host_selection none {}
      { kubelet_client_cert := none, verify := Verify.bool true }
      api_net_one_node fs_none none "u" "d").2.2.2.1 rfl rfl rfl).1
      "k8s-node-1" rfl (by decide)
  · exact ((C5_host_selection none {}
      { kubelet_client_cert := none, verify := Verify.bool true }
      api_net_none fs_none none "u" "d").2.2.2.1 rfl rfl rfl).2.1
      .connection rfl
  · exact (C5_host_selection none {}
      { kubelet_client_cert := none, verify := Verify.bool true }
      api_net_none fs_none none "u" "d").2.2.2.2.2

/-- C2: when both the HTTP and the HTTPS health probes raise, `_locate_kubelet`
raises; `__init__` catches, logs and re-raises, so construction fails with the
error propagating out, and no kubelet base URL is memoized: the result is
`.error ()`, which carries no `KubeUtilState`, so none of the fields derived
from the base URL (`kubelet_host`, `pods_list_url`, `kube_health_url`,
cadvisor URLs) are ever set. -/
theorem C2_init_fails_when_both_probes_fail (net : KubeletRequest → KubeletResult)
    (apiNet : ApiRequest → Option (ApiResponse NodeList)) (fs : String → Bool)
    (tokenFile : Option String)
    (envKubeletHost envServiceHost envHostname : Option String)
    (docker : String) (inst : KubeConfig) (host : String)
    (hhost : host = kubelet_host_choice envKubeletHost inst (init_tls_settings fs inst)
        apiNet fs tokenFile
        ("https://" ++ (pyOr envServiceHost (some DEFAULT_MASTER_NAME)).getD "" ++ "/api/v1")
        docker)
    (h1 : net (kubelet_request (init_tls_settings fs inst) tokenFile
        (urljoin_abs (http_probe_base inst host) KUBELET_HEALTH_PATH) true 10) = .exc)
    (h2 : net (kubelet_request (init_tls_settings fs inst) tokenFile
        (urljoin_abs (https_probe_base inst host) KUBELET_HEALTH_PATH) true 10) = .exc) :
    kube_util_init net apiNet fs tokenFile envKubeletHost envServiceHost envHostname
      docker inst = .error () ∧
    (∀ st : KubeUtilState,
      kube_util_init net apiNet fs tokenFile envKubeletHost envServiceHost envHostname
        docker inst ≠ .ok st) := by
  subst hhost
  have hloc : locate_kubelet net apiNet fs tokenFile envKubeletHost
      ("https://" ++ (pyOr envServiceHost (some DEFAULT_MASTER_NAME)).getD "" ++ "/api/v1")
      docker (init_tls_settings fs inst) inst =
      (.error (),
       [urljoin_abs (http_probe_base inst
          (kubelet_host_choice envKubeletHost inst (init_tls_settings fs inst) apiNet fs
            tokenFile
            ("https://" ++ (pyOr envServiceHost (some DEFAULT_MASTER_NAME)).getD "" ++ "/api/v1")
            docker)) KUBELET_HEALTH_PATH,
        urljoin_abs (https_probe_base inst
          (kubelet_host_choice envKubeletHost inst (init_tls_settings fs inst) apiNet fs
            tokenFile
            ("https://" ++ (pyOr envServiceHost (some DEFAULT_MASTER_NAME)).getD "" ++ "/api/v1")
            docker)) KUBELET_HEALTH_PATH]) := by
    simp [locate_kubelet, perform_kubelet_query, h1, h2]
  have hinit : kube_util_init net apiNet fs tokenFile envKubeletHost envServiceHost
      envHostname docker inst = .error () := by
    simp [kube_util_init, hloc]
  exact ⟨hinit, fun st h => by rw [hinit] at h; exact Except.noConfusion h⟩

/-- C2 witness: with a kubelet that raises on every request, construction
fails with the propagated error. -/
theorem C2_init_fails_witness :
    kube_util_init net_exc api_net_none fs_none none (some "h") none none
      "dock" {} = .error () := by
  exact (C2_init_fails_when_both_probes_fail net_exc api_net_none fs_none none
    (some "h") none none "dock" {} "h" (by decide) rfl rfl).1
